import Mathlib

/-! Shallow embedding of `src/rewst_remote_agent.py` (a remote-execution agent).

The agent receives JSON messages over a transport, executes shell commands,
and reports results.  We embed the command dispatch and execution pipeline:

* a model of Python's `json.loads` / `json.dumps` value domain (`Json`) and a
  parser faithful to the CPython `json` module's grammar (`jsonParse`);
* interpreter resolution, the PowerShell preamble, and command framing from
  `execute_commands` (lines 81-137);
* output parsing and delivery from `handle_commands` (lines 141-156);
* the message dispatch of `message_handler` (lines 66-74);
* the heartbeat loop of `status_update_task` (lines 188-192).

External collaborators (the IoT-hub transport, `httpx`, the subprocess layer,
`psutil`) are modelled as oracles/effect constructors: the functions return the
list of externally visible effects they would perform, and Python exceptions
are modelled with `Except String`.
-/

set_option linter.unusedVariables false
set_option maxRecDepth 8192

/-- JSON values as produced by Python's `json.loads`.  Python represents JSON
numbers with a fractional part or exponent (and the constants `NaN`,
`Infinity`, `-Infinity`) as IEEE-754 floats; the model keeps the matched
literal text of such a number (`"nan"`, `"inf"`, `"-inf"` for the constants),
which preserves exactly which texts parse, while integer-form numbers are kept
as exact integers (Python ints are arbitrary precision). -/
inductive Json where
  | null : Json
  | bool (b : Bool) : Json
  | int (n : Int) : Json
  | float (lit : String) : Json
  | str (s : String) : Json
  | arr (xs : List Json) : Json
  | obj (kvs : List (String × Json)) : Json

/-- Skip JSON whitespace (space, tab, newline, carriage return), as CPython's
`json.decoder.WHITESPACE` regex `[ \t\n\r]*` does. -/
def skipWs : List Char → List Char
  | c :: rest =>
    if c = ' ' ∨ c = '\t' ∨ c = '\n' ∨ c = '\r' then skipWs rest else c :: rest
  | [] => []

/-- Value of a hex digit, used for `\uXXXX` escapes. -/
def hexVal (c : Char) : Option Nat :=
  if '0' ≤ c ∧ c ≤ '9' then some (c.toNat - '0'.toNat)
  else if 'a' ≤ c ∧ c ≤ 'f' then some (c.toNat - 'a'.toNat + 10)
  else if 'A' ≤ c ∧ c ≤ 'F' then some (c.toNat - 'A'.toNat + 10)
  else none

/-- Body of a JSON string after the opening quote, per CPython
`json.decoder.py_scanstring` with `strict=True`: raw control characters are
rejected, the escapes `\" \\ \/ \b \f \n \r \t \uXXXX` are recognised, and a
`\uXXXX` high surrogate followed by a low surrogate escape is combined.
CPython keeps a lone surrogate as-is in the `str`; Lean's `String` holds only
unicode scalar values, so the model maps a lone surrogate to U+FFFD (the
parse still succeeds, as in CPython). -/
def parseStrBody : Nat → List Char → List Char → Except String (String × List Char)
  | 0, _, _ => .error "Unterminated string starting at"
  | Nat.succ fuel, acc, cs =>
    match cs with
    | '"' :: rest => .ok (String.mk acc.reverse, rest)
    | '\\' :: 'u' :: a :: b :: c :: d :: rest =>
      match hexVal a, hexVal b, hexVal c, hexVal d with
      | some ha, some hb, some hc, some hd =>
        let n := ((ha * 16 + hb) * 16 + hc) * 16 + hd
        if 0xD800 ≤ n ∧ n ≤ 0xDBFF then
          match rest with
          | '\\' :: 'u' :: a2 :: b2 :: c2 :: d2 :: rest2 =>
            match hexVal a2, hexVal b2, hexVal c2, hexVal d2 with
            | some ha2, some hb2, some hc2, some hd2 =>
              let m := ((ha2 * 16 + hb2) * 16 + hc2) * 16 + hd2
              if 0xDC00 ≤ m ∧ m ≤ 0xDFFF then
                let u := 0x10000 + (n - 0xD800) * 0x400 + (m - 0xDC00)
                parseStrBody fuel (Char.ofNat u :: acc) rest2
              else
                -- first escape is a lone high surrogate; the second is scanned on its own
                parseStrBody fuel (Char.ofNat 0xFFFD :: acc) ('\\' :: 'u' :: a2 :: b2 :: c2 :: d2 :: rest2)
            | _, _, _, _ => .error "Invalid \\uXXXX escape"
          | _ => parseStrBody fuel (Char.ofNat 0xFFFD :: acc) rest
        else if 0xDC00 ≤ n ∧ n ≤ 0xDFFF then
          parseStrBody fuel (Char.ofNat 0xFFFD :: acc) rest
        else
          parseStrBody fuel (Char.ofNat n :: acc) rest
      | _, _, _, _ => .error "Invalid \\uXXXX escape"
    | '\\' :: e :: rest =>
      match e with
      | '"' => parseStrBody fuel ('"' :: acc) rest
      | '\\' => parseStrBody fuel ('\\' :: acc) rest
      | '/' => parseStrBody fuel ('/' :: acc) rest
      | 'b' => parseStrBody fuel (Char.ofNat 8 :: acc) rest
      | 'f' => parseStrBody fuel (Char.ofNat 12 :: acc) rest
      | 'n' => parseStrBody fuel ('\n' :: acc) rest
      | 'r' => parseStrBody fuel ('\r' :: acc) rest
      | 't' => parseStrBody fuel ('\t' :: acc) rest
      | _ => .error "Invalid \\escape"
    | c :: rest =>
      if c.toNat < 32 then .error "Invalid control character"
      else parseStrBody fuel (c :: acc) rest
    | [] => .error "Unterminated string starting at"

/-- Longest prefix of decimal digits. -/
def spanDigits : List Char → (List Char × List Char)
  | c :: rest =>
    if c.isDigit then
      let (d, r) := spanDigits rest
      (c :: d, r)
    else ([], c :: rest)
  | [] => ([], [])

/-- Integer value of a digit list (most significant first). -/
def digitsToNat (ds : List Char) : Nat :=
  ds.foldl (fun acc c => acc * 10 + (c.toNat - '0'.toNat)) 0

/-- CPython `json` number scanning, per the `NUMBER_RE` regex
`(-?(?:0|[1-9]\d*))(\.\d+)?([eE][-+]?\d+)?`: the integer part forbids leading
zeros; a fractional part or an exponent makes the number a float (the model
keeps its literal), otherwise it is an exact int.  Returns `none` when no
number starts here. -/
def parseNumber (cs : List Char) : Option (Json × List Char) :=
  let (neg, cs1) := match cs with
    | '-' :: rest => (true, rest)
    | _ => (false, cs)
  match cs1 with
  | c :: rest =>
    if ¬ c.isDigit then none
    else
      let (intDigits, cs2) :=
        if c = '0' then ([c], rest)
        else
          let (d, r) := spanDigits rest
          (c :: d, r)
      let (fracDigits, cs3) := match cs2 with
        | '.' :: r =>
          let (d, r2) := spanDigits r
          if d.isEmpty then ([], cs2) else ('.' :: d, r2)
        | _ => ([], cs2)
      let (expDigits, cs4) := match cs3 with
        | e :: r =>
          if e = 'e' ∨ e = 'E' then
            let (sign, r1) := match r with
              | s :: r2 => if s = '+' ∨ s = '-' then ([s], r2) else ([], r)
              | [] => ([], r)
            let (d, r2) := spanDigits r1
            if d.isEmpty then ([], cs3) else (e :: sign ++ d, r2)
          else ([], cs3)
        | [] => ([], cs3)
      if fracDigits.isEmpty ∧ expDigits.isEmpty then
        let v : Int := Int.ofNat (digitsToNat intDigits)
        some (Json.int (if neg then -v else v), cs2)
      else
        let lit := String.mk ((if neg then ['-'] else []) ++ intDigits ++ fracDigits ++ expDigits)
        some (Json.float lit, cs4)
  | [] => none

/-- Python `dict` insertion: a duplicate key keeps its original position and
takes the new value; a new key is appended. -/
def insertKV (kvs : List (String × Json)) (k : String) (v : Json) : List (String × Json) :=
  if kvs.any (fun p => p.1 = k) then
    kvs.map (fun p => if p.1 = k then (k, v) else p)
  else kvs ++ [(k, v)]

mutual

/-- One value, per CPython's `json.scanner.py_make_scanner._scan_once`; the
caller has already skipped leading whitespace.  `fuel` bounds recursion depth
(CPython bounds it by the interpreter recursion limit); `jsonParse` supplies
fuel that cannot run out. -/
def scanValue : Nat → List Char → Except String (Json × List Char)
  | 0, _ => .error "Expecting value"
  | Nat.succ fuel, cs =>
    match cs with
    | '"' :: rest =>
      match parseStrBody (rest.length + 1) [] rest with
      | .ok (s, r) => .ok (Json.str s, r)
      | .error e => .error e
    | '{' :: rest => scanObject fuel (skipWs rest)
    | '[' :: rest => scanArray fuel (skipWs rest)
    | 'n' :: 'u' :: 'l' :: 'l' :: rest => .ok (Json.null, rest)
    | 't' :: 'r' :: 'u' :: 'e' :: rest => .ok (Json.bool true, rest)
    | 'f' :: 'a' :: 'l' :: 's' :: 'e' :: rest => .ok (Json.bool false, rest)
    | 'N' :: 'a' :: 'N' :: rest => .ok (Json.float "nan", rest)
    | 'I' :: 'n' :: 'f' :: 'i' :: 'n' :: 'i' :: 't' :: 'y' :: rest => .ok (Json.float "inf", rest)
    | '-' :: 'I' :: 'n' :: 'f' :: 'i' :: 'n' :: 'i' :: 't' :: 'y' :: rest => .ok (Json.float "-inf", rest)
    | _ =>
      match parseNumber cs with
      | some (j, rest) => .ok (j, rest)
      | none => .error "Expecting value"

/-- Object body after `{` and whitespace. -/
def scanObject : Nat → List Char → Except String (Json × List Char)
  | 0, _ => .error "Expecting value"
  | Nat.succ fuel, cs =>
    match cs with
    | '}' :: rest => .ok (Json.obj [], rest)
    | _ => scanMembers fuel cs []

/-- Object members, positioned at a (hoped-for) key. -/
def scanMembers : Nat → List Char → List (String × Json) → Except String (Json × List Char)
  | 0, _, _ => .error "Expecting value"
  | Nat.succ fuel, cs, acc =>
    match cs with
    | '"' :: rest =>
      match parseStrBody (rest.length + 1) [] rest with
      | .error e => .error e
      | .ok (k, r1) =>
        match skipWs r1 with
        | ':' :: r3 =>
          match scanValue fuel (skipWs r3) with
          | .error e => .error e
          | .ok (v, r4) =>
            let acc2 := insertKV acc k v
            match skipWs r4 with
            | ',' :: r6 => scanMembers fuel (skipWs r6) acc2
            | '}' :: r6 => .ok (Json.obj acc2, r6)
            | _ => .error "Expecting comma delimiter"
        | _ => .error "Expecting colon delimiter"
    | _ => .error "Expecting property name enclosed in double quotes"

/-- Array body after `[` and whitespace. -/
def scanArray : Nat → List Char → Except String (Json × List Char)
  | 0, _ => .error "Expecting value"
  | Nat.succ fuel, cs =>
    match cs with
    | ']' :: rest => .ok (Json.arr [], rest)
    | _ => scanElems fuel cs []

/-- Array elements, positioned at a value. -/
def scanElems : Nat → List Char → List Json → Except String (Json × List Char)
  | 0, _, _ => .error "Expecting value"
  | Nat.succ fuel, cs, acc =>
    match scanValue fuel cs with
    | .error e => .error e
    | .ok (v, r1) =>
      match skipWs r1 with
      | ',' :: r3 => scanElems fuel (skipWs r3) (acc ++ [v])
      | ']' :: r3 => .ok (Json.arr (acc ++ [v]), r3)
      | _ => .error "Expecting comma delimiter"

end

/-- Model of `json.loads`: skip leading whitespace, scan one value, require only
whitespace after it (otherwise CPython raises `JSONDecodeError: Extra data`).
The fuel `2 * length + 2` dominates the recursion depth: every two nested
scanner calls consume at least one character. -/
def jsonParse (s : String) : Except String Json :=
  let cs := skipWs s.toList
  match scanValue (2 * cs.length + 2) cs with
  | .error e => .error e
  | .ok (v, rest) =>
    match skipWs rest with
    | [] => .ok v
    | _ => .error "Extra data"

/-! Section: Python-semantics helpers. -/

/-- Python truthiness of an optional string argument (`None` and `""` are
falsy), as used by `interpreter_override or default_interpreter` (line 89)
and `if post_id:` (line 142). -/
def pyTruthy : Option String → Bool
  | none => false
  | some s => ¬ s.isEmpty

/-- Python `f"{x}"` for an optional string: `None` prints as `"None"`. -/
def pyStrOfOpt : Option String → String
  | none => "None"
  | some s => s

/-- Whether `hay` starts with `needle`. -/
def listStartsWith : List Char → List Char → Bool
  | [], _ => true
  | _ :: _, [] => false
  | n :: ns, h :: hs => n = h ∧ listStartsWith ns hs

/-- Substring occurrence on character lists. -/
def listContainsSub (needle : List Char) : List Char → Bool
  | [] => needle.isEmpty
  | h :: hs => listStartsWith needle (h :: hs) ∨ listContainsSub needle hs

/-- Python's `needle in hay` for strings (substring containment). -/
def pyContains (needle hay : String) : Bool :=
  listContainsSub needle.toList hay.toList

/-! Section: effects.

The externally visible actions of the agent.  A child-process spawn, a send
over the IoT-hub transport, and an HTTP POST; each modelled function returns
the list of effects it performs, and a Python exception is an
`Except.error`. -/

inductive Effect where
  | spawnShell (command : String) : Effect
  | transportSend (message : Json) : Effect
  | httpPost (url : String) (body : Json) : Effect

/-! Section: model of `execute_commands` (lines 81-137). -/

/-- Interpreter resolution, lines 82-89 of `execute_commands`: the module
global `os_type = platform.system()` selects a default
(`'windows' → 'powershell'`, `'darwin' → '/bin/zsh'`, else `'/bin/bash'`),
and `interpreter = interpreter_override or default_interpreter` lets a truthy
override win unconditionally. -/
def resolveInterpreter (os_type : String) (interpreter_override : Option String) : String :=
  let default_interpreter :=
    if os_type = "windows" then "powershell"
    else if os_type = "darwin" then "/bin/zsh"
    else "/bin/bash"
  match interpreter_override with
  | some s => if s.isEmpty then default_interpreter else s
  | none => default_interpreter

/-- The PowerShell preamble (lines 95-98): forces TLS 1.2 and binds
`$post_url` to the f-string interpolation of the `post_url` argument. -/
def psPreamble (post_url : String) : String :=
  "[Net.ServicePointManager]::SecurityProtocol = [Net.SecurityProtocolType]::Tls12\n" ++
  "$post_url = \x27" ++ post_url ++ "\x27\n"

/-- Lines 93-100 of `execute_commands`: when `"powershell" in interpreter`,
prepend the preamble (with `post_url` printed by the f-string, so `None`
becomes the text `None`); otherwise leave the commands unchanged. -/
def applyPreamble (interpreter : String) (post_url : Option String) (commands : String) : String :=
  if pyContains "powershell" interpreter then psPreamble (pyStrOfOpt post_url) ++ commands
  else commands

/-- Lines 102-109 of `execute_commands`.  Lines 103-108 assign `command`
(framed with `-c` only when an override was given); line 109 then
unconditionally re-assigns `command = f'{interpreter} -c "{all_commands}"'`,
but no name `all_commands` is bound anywhere in the program, so CPython
raises `NameError` here on every call. -/
def buildCommand (interpreter : String) (commands : String)
    (interpreter_override : Option String) : Except String String := do
  let command :=
    if pyTruthy interpreter_override then interpreter ++ " -c \"" ++ commands ++ "\""
    else commands
  -- line 109: evaluating the f-string looks up the unbound name `all_commands`
  let all_commands ← (Except.error "NameError: name \x27all_commands\x27 is not defined" : Except String String)
  pure (interpreter ++ " -c \"" ++ all_commands ++ "\"")

/-- Model of `execute_commands` (lines 81-120): resolve the interpreter, apply the
PowerShell preamble, frame the command (which raises `NameError`, line 109),
spawn the shell, and return the stripped stdout (line 120).  The
`interpreter_delimiter` parameter is received and never used (the join
mentioned by the comment on line 90 was never implemented); `subprocessOut`
is the oracle for the child process's stdout.  Lines 122-137 of the source
sit after the `return` on line 120 and are unreachable (see
`post_results_block`). -/
def execute_commands (os_type : String) (commands : String) (post_url : Option String)
    (interpreter_override : Option String) (interpreter_delimiter : String)
    (subprocessOut : String → String) : Except String (String × List Effect) := do
  let interpreter := resolveInterpreter os_type interpreter_override
  let commands := applyPreamble interpreter post_url commands
  let command ← buildCommand interpreter commands interpreter_override
  -- lines 111-117: spawn the shell and gather stdout/stderr
  let stdout := subprocessOut command
  -- lines 119-120: decode, strip, and return
  pure (stdout.trim, [Effect.spawnShell command])

/-- Lines 122-137 of `execute_commands`, which follow the `return` on
line 120 and can never execute: they would re-parse `command_output` (itself
unbound inside `execute_commands`) and POST the result to `post_url` when the
interpreter is not PowerShell.  Kept only to document what the dead code
would do with a given output and post target. -/
def post_results_block (interpreter : String) (post_url : Option String)
    (command_output : String) : List Effect :=
  let message_data :=
    match jsonParse command_output with
    | .ok v => v
    | .error e => Json.obj
        [("error", Json.str ("Error decoding command output as JSON: " ++ e)),
         ("output", Json.str command_output)]
  if pyContains "powershell" interpreter then []
  else [Effect.httpPost (pyStrOfOpt post_url) message_data]

/-! Section: model of `handle_commands` (lines 141-156). -/

/-- Lines 142-144 of `handle_commands`: the callback URL built from a
`post_id` by replacing every `:` with `/` and embedding it under the engine
host.  `post_id.replace(":", "/")` has a one-character pattern, so it is the
per-character substitution `':' → '/'`. -/
def buildPostUrl (rewst_engine_host : String) (post_id : String) : String :=
  let post_path := String.mk (post_id.toList.map (fun c => if c = ':' then '/' else c))
  "https://" ++ rewst_engine_host ++ "/webhooks/custom/action/" ++ post_path

/-- Lines 147-152 of `handle_commands`: try `json.loads` on the command
output; on a decode error produce the error-wrapper object instead of
propagating the failure. -/
def processOutput (command_output : String) : Json :=
  match jsonParse command_output with
  | .ok v => v
  | .error e => Json.obj
      [("error", Json.str ("Error decoding command output as JSON: " ++ e)),
       ("output", Json.str command_output)]

/-- Lines 147-156 of `handle_commands`: parse (or wrap) the command output,
`json.dumps` it, and send it to the IoT hub.  Total in the output string: a
parse failure is converted to data, never re-raised. -/
def deliverResult (command_output : String) : List Effect :=
  [Effect.transportSend (processOutput command_output)]

/-- Model of `handle_commands` (lines 141-156): build the callback URL when `post_id`
is truthy (lines 142-144) — the resulting `post_url` is never read again —
then call `execute_commands` with `rewst_engine_host` in its `post_url`
position (line 146), and deliver the processed output to the IoT hub
(lines 147-156).  Only `json.JSONDecodeError` is caught (inside
`deliverResult`); any other exception from `execute_commands` propagates. -/
def handle_commands (os_type : String) (commands : String) (post_id : Option String)
    (rewst_engine_host : Option String) (interpreter_override : Option String)
    (interpreter_delimiter : String) (subprocessOut : String → String) :
    Except String (List Effect) := do
  let post_url :=
    if pyTruthy post_id then
      some (buildPostUrl (pyStrOfOpt rewst_engine_host) (pyStrOfOpt post_id))
    else none
  let (command_output, effs) ←
    execute_commands os_type commands rewst_engine_host interpreter_override
      interpreter_delimiter subprocessOut
  pure (effs ++ deliverResult command_output)

/-! Section: model of `message_handler` (lines 66-74). -/

/-- The execution request `message_handler` hands to
`executor.submit(run_handle_commands, commands, post_id, None, None,
interpreter_delimiter)` on line 74: the two literal `None`s land in
`run_handle_commands`' `rewst_engine_host` and `interpreter` parameters. -/
structure ExecRequest where
  commands : Json
  post_id : Option Json
  rewst_engine_host : Option String
  interpreter : Option String
  interpreter_delimiter : Json

/-- Python `dict` lookup on the (duplicate-free, insertion-ordered) pairs the
parser produces. -/
def dictGet (kvs : List (String × Json)) (k : String) : Option Json :=
  (kvs.find? (fun p => p.1 == k)).map (fun p => p.2)

/-- Python's `"commands" in message_data` (line 69) across the types
`json.loads` can return: key membership for a dict, element equality for a
list (`str == non-str` is `False`), substring test for a str, and a
`TypeError` for the non-iterable types. -/
def pyInCommands : Json → Except String Bool
  | .obj kvs => .ok (kvs.any (fun p => p.1 == "commands"))
  | .arr xs => .ok (xs.any (fun j => match j with | .str s => s == "commands" | _ => false))
  | .str s => .ok (pyContains "commands" s)
  | _ => .error "TypeError: argument of type is not iterable"

/-- Python's `message_data["commands"]` (line 70): dict lookup; a str index
into a list or str raises `TypeError`. -/
def pyIndexCommands : Json → Except String Json
  | .obj kvs =>
    match dictGet kvs "commands" with
    | some v => .ok v
    | none => .error "KeyError: commands"
  | _ => .error "TypeError: indices must be integers"

/-- Model of `message_handler` (lines 66-74): decode the message body with an
unguarded `json.loads` (line 68), and only when a `commands` key is present
extract `commands`, the optional `post_id`, and `interpreter_delimiter`
(default `"\n"`) and submit one execution request to the thread pool; the
handler itself performs no transport send and no HTTP request.  Returns the
submitted requests; an `Except.error` is an exception escaping the
handler. -/
def message_handler (data : String) : Except String (List ExecRequest) := do
  let message_data ← jsonParse data
  let hasCommands ← pyInCommands message_data
  if hasCommands then do
    let commands ← pyIndexCommands message_data
    match message_data with
    | Json.obj kvs =>
      let post_id := dictGet kvs "post_id"
      let interpreter_delimiter := (dictGet kvs "interpreter_delimiter").getD (Json.str "\n")
      pure [⟨commands, post_id, none, none, interpreter_delimiter⟩]
    | _ =>
      -- not reachable: for a non-dict, `message_data["commands"]` raised first
      .error "AttributeError: object has no attribute get"
  else
    pure []

/-! Section: the heartbeat (`send_status_update`, lines 21-32, and
`status_update_task`, lines 188-192). -/

/-- Line 15: seconds between heartbeat cycles. -/
def status_update_checkin_time : Nat := 600

/-- Model of `send_status_update` (lines 21-32): sample CPU and memory (here the
oracle values `cpu`/`mem`), serialize `{"cpu_usage": .., "memory_usage": ..}`
and send it; `device_client.send_message` may raise, and nothing here catches
it. -/
def send_status_update (cpu mem : Json) (sendOutcome : Except String Unit) :
    Except String (List Effect) :=
  match sendOutcome with
  | .ok _ => .ok [Effect.transportSend (Json.obj [("cpu_usage", cpu), ("memory_usage", mem)])]
  | .error e => .error e

/-- Model of `status_update_task` (lines 188-192): `while True: await
send_status_update(); await asyncio.sleep(600)` with no exception handling in
the loop body.  Each list entry is one cycle's sampled values and the
transport outcome for its send; the result is the effects of the cycles the
loop actually completes, or the exception that escaped the loop. -/
def status_update_task : List (Json × Json × Except String Unit) → Except String (List Effect)
  | [] => .ok []
  | (cpu, mem, outcome) :: rest => do
    let effs ← send_status_update cpu mem outcome
    -- await asyncio.sleep(status_update_checkin_time), then the next iteration
    let more ← status_update_task rest
    pure (effs ++ more)

/-! Section: sanity checks of the embedding, then the claims. -/

/-- Sanity: the parser on a small object with nested array, matching
`json.loads`. -/
theorem jsonParse_sanity_object :
    jsonParse "\x7b\"a\": 1, \"b\": [true, null, 1.5e3]\x7d"
      = Except.ok (Json.obj [("a", Json.int 1),
          ("b", Json.arr [Json.bool true, Json.null, Json.float "1.5e3"])]) := rfl

/-- Sanity: non-JSON text, the empty string, a leading-zero numeral, a
trailing comma, and the `NaN` extension behave as in `json.loads`. -/
theorem jsonParse_sanity_errors :
    jsonParse "hello" = Except.error "Expecting value"
    ∧ jsonParse "" = Except.error "Expecting value"
    ∧ jsonParse "1" = Except.ok (Json.int 1)
    ∧ jsonParse "012" = Except.error "Extra data"
    ∧ jsonParse "NaN" = Except.ok (Json.float "nan")
    ∧ jsonParse "[1,]" = Except.error "Expecting value"
    ∧ jsonParse "\"a\\u0041b\"" = Except.ok (Json.str "aAb") := by
  refine ⟨rfl, rfl, rfl, rfl, rfl, rfl, rfl⟩

/-- Sanity: duplicate object keys collapse with the last value winning, as a
Python dict does. -/
theorem jsonParse_sanity_duplicate_keys :
    jsonParse " \x7b\"a\": 1, \"a\": 2\x7d " = Except.ok (Json.obj [("a", Json.int 2)]) := rfl

/-- Sanity: the substring test used for `"powershell" in interpreter`. -/
theorem pyContains_sanity :
    pyContains "powershell" "C:\\bin\\powershell.exe" = true
    ∧ pyContains "powershell" "/bin/bash" = false := ⟨rfl, rfl⟩

/-- Claim C1 (code bug): the claim states that `execute_commands` always
produces a well-defined command string — `<interpreter> -c "<commands>"`
under an override, the bare command text otherwise — and reaches the child
process spawn.  In the code, line 109 unconditionally re-builds the command
from the name `all_commands`, which is bound nowhere, so every call raises
`NameError` before the spawn: no command string survives and no process is
ever spawned (no `Effect.spawnShell` is ever produced). -/
theorem C1_framing_always_raises_NameError (os_type commands : String)
    (post_url interpreter_override : Option String) (interpreter_delimiter : String)
    (subprocessOut : String → String) :
    execute_commands os_type commands post_url interpreter_override
        interpreter_delimiter subprocessOut
      = Except.error "NameError: name \x27all_commands\x27 is not defined" := rfl

/-- Claim C2 (code bug): the claim states that on a PowerShell run the
executed text is the commands prefixed by a preamble that forces TLS 1.2 and
binds `$post_url` to the callback URL built from the message's `post_id`.
The preamble is indeed prepended (lines 94-100), but the value interpolated
into `$post_url` is `execute_commands`' `post_url` parameter, which receives
`rewst_engine_host` (line 146) — and the dispatch path passes `None` for it
(line 74) — while the callback URL built on lines 142-144 is never passed
anywhere.  Concretely, for a message with `post_id = "abc:123"` dispatched on
a windows host with engine host `h.example.com`, the command text binds
`$post_url = 'None'` and the claimed callback URL occurs nowhere in it. -/
theorem C2_preamble_binds_None_not_the_callback_url :
    applyPreamble (resolveInterpreter "windows" none) none "Get-Date"
      = "[Net.ServicePointManager]::SecurityProtocol = [Net.SecurityProtocolType]::Tls12\n" ++
        "$post_url = \x27None\x27\nGet-Date"
    ∧ pyContains (buildPostUrl "h.example.com" "abc:123")
        (applyPreamble (resolveInterpreter "windows" none) none "Get-Date") = false := by
  constructor
  · rfl
  · rfl

/-- Claim C3 (code bug): the claim states that a completed non-PowerShell
command with a `post_id` triggers an HTTP POST of the parsed result to
`https://<engineHost>/webhooks/custom/action/<post_id with ':' → '/'>`.  The
URL-construction on lines 142-144 does compute exactly that URL (second
conjunct), but it is a dead variable, and the POST code (lines 129-137) sits
after the `return` on line 120 of `execute_commands`, so `handle_commands`
always ends in the `NameError` of line 109 and produces no effect at all — in
particular no `Effect.httpPost`, for any input. -/
theorem C3_http_post_never_issued (os_type commands : String)
    (post_id rewst_engine_host interpreter_override : Option String)
    (interpreter_delimiter : String) (subprocessOut : String → String) :
    handle_commands os_type commands post_id rewst_engine_host interpreter_override
        interpreter_delimiter subprocessOut
      = Except.error "NameError: name \x27all_commands\x27 is not defined"
    ∧ buildPostUrl "h.example.com" "abc:123"
      = "https://h.example.com/webhooks/custom/action/abc/123" :=
  ⟨rfl, rfl⟩

/-- Claim C4 (confirmed): for every command output that is not valid JSON
text, the delivered result is exactly the error-wrapper object
`{"error": <parse error message>, "output": <output>}` (the output string
reaching `handle_commands` is already whitespace-trimmed by line 120), and
the parse failure is converted to data by lines 147-152 rather than
propagated: `deliverResult` is total and sends exactly the wrapper. -/
theorem C4_parse_failure_becomes_error_wrapper (s e : String)
    (h : jsonParse s = Except.error e) :
    deliverResult s = [Effect.transportSend (Json.obj
      [("error", Json.str ("Error decoding command output as JSON: " ++ e)),
       ("output", Json.str s)])] := by
  simp [deliverResult, processOutput, h]

/-- Witness for C4 at the concrete non-JSON output `"Total memory: 16GB"`. -/
theorem C4_witness :
    jsonParse "Total memory: 16GB" = Except.error "Expecting value"
    ∧ deliverResult "Total memory: 16GB" = [Effect.transportSend (Json.obj
      [("error", Json.str ("Error decoding command output as JSON: " ++ "Expecting value")),
       ("output", Json.str "Total memory: 16GB")])] :=
  ⟨rfl, C4_parse_failure_becomes_error_wrapper "Total memory: 16GB" "Expecting value" rfl⟩

/-- Claim C5 (confirmed): interpreter resolution (lines 82-89) is the pure
function that returns a non-empty override unconditionally, and otherwise
maps the platform string `"windows"` to `"powershell"`, `"darwin"` to
`"/bin/zsh"`, and everything else (including `"linux"`) to `"/bin/bash"`;
being a total function it never fails, and resolving the same pair twice
yields the same string. -/
theorem C5_interpreter_resolution (p o : String) (h : o ≠ "") :
    resolveInterpreter p (some o) = o
    ∧ resolveInterpreter "windows" none = "powershell"
    ∧ resolveInterpreter "darwin" none = "/bin/zsh"
    ∧ resolveInterpreter "linux" none = "/bin/bash"
    ∧ (p ≠ "windows" → p ≠ "darwin" → resolveInterpreter p none = "/bin/bash")
    ∧ resolveInterpreter p (some o) = resolveInterpreter p (some o) := by
  refine ⟨?_, rfl, rfl, rfl, ?_, rfl⟩
  · simp [resolveInterpreter, String.isEmpty_iff, h]
  · intro h1 h2
    simp [resolveInterpreter, h1, h2]

/-- Witness for C5 at platform `"linux"` with override `"sh"`. -/
theorem C5_witness :
    "sh" ≠ ""
    ∧ (resolveInterpreter "linux" (some "sh") = "sh"
      ∧ resolveInterpreter "windows" none = "powershell"
      ∧ resolveInterpreter "darwin" none = "/bin/zsh"
      ∧ resolveInterpreter "linux" none = "/bin/bash"
      ∧ ("linux" ≠ "windows" → "linux" ≠ "darwin" → resolveInterpreter "linux" none = "/bin/bash")
      ∧ resolveInterpreter "linux" (some "sh") = resolveInterpreter "linux" (some "sh")) :=
  ⟨by decide, C5_interpreter_resolution "linux" "sh" (by decide)⟩

/-- Claim C6 (confirmed): an inbound message whose decoded JSON object has no
`"commands"` key makes `message_handler` submit no execution request and
return normally — a silent no-op; the handler contains no transport send and
no HTTP call, so no outbound traffic is produced either. -/
theorem C6_missing_commands_is_noop (data : String) (kvs : List (String × Json))
    (h1 : jsonParse data = Except.ok (Json.obj kvs))
    (h2 : kvs.any (fun p => p.1 == "commands") = false) :
    message_handler data = Except.ok [] := by
  simp [message_handler, h1, pyInCommands, h2, Bind.bind, Except.bind, pure, Except.pure]

/-- Witness for C6 at the concrete message `{"post_id": "x"}`. -/
theorem C6_witness :
    jsonParse "\x7b\"post_id\": \"x\"\x7d" = Except.ok (Json.obj [("post_id", Json.str "x")])
    ∧ [("post_id", Json.str "x")].any (fun p => p.1 == "commands") = false
    ∧ message_handler "\x7b\"post_id\": \"x\"\x7d" = Except.ok [] :=
  ⟨rfl, rfl, C6_missing_commands_is_noop "\x7b\"post_id\": \"x\"\x7d" [("post_id", Json.str "x")] rfl rfl⟩

/-- Claim C8 (code bug): the claim states that a transport send failure in a
heartbeat cycle is reported and the loop still runs its next cycle.  The loop
body (lines 189-191) has no exception handling, so the first failing
`send_message` propagates out of `status_update_task` and terminates the
loop: however many further cycles were to come, none of them happens and the
task ends with the exception. -/
theorem C8_send_failure_terminates_heartbeat (good : List (Json × Json))
    (cpu mem : Json) (e : String) (rest : List (Json × Json × Except String Unit)) :
    status_update_task
        (good.map (fun p => (p.1, p.2, Except.ok ())) ++ (cpu, mem, Except.error e) :: rest)
      = Except.error e := by
  induction good with
  | nil => rfl
  | cons hd tl ih =>
    simp only [List.map_cons, List.cons_append, status_update_task, send_status_update,
      Bind.bind, Except.bind, List.append_eq, ih]

/-- Claim C9 (confirmed): the `interpreter_delimiter` value is extracted and
passed down (line 72, line 74, line 146) but `execute_commands` never reads
it — the join announced by the comment on line 90 does not exist — so two
messages differing only in the delimiter produce the same framed command
attempt and the same delivered outcome. -/
theorem C9_delimiter_has_no_effect (os_type commands : String)
    (post_id rewst_engine_host interpreter_override : Option String)
    (d₁ d₂ : String) (subprocessOut : String → String) :
    execute_commands os_type commands rewst_engine_host interpreter_override d₁ subprocessOut
      = execute_commands os_type commands rewst_engine_host interpreter_override d₂ subprocessOut
    ∧ handle_commands os_type commands post_id rewst_engine_host interpreter_override d₁ subprocessOut
      = handle_commands os_type commands post_id rewst_engine_host interpreter_override d₂ subprocessOut :=
  ⟨rfl, rfl⟩

/-- Claim C10 (confirmed): the `json.loads` on line 68 is unguarded, so for a
message body that is not valid JSON the decode error escapes
`message_handler` as an exception instead of being a silent no-op. -/
theorem C10_invalid_json_escapes_handler (data e : String)
    (h : jsonParse data = Except.error e) :
    message_handler data = Except.error e := by
  simp [message_handler, h, Bind.bind, Except.bind]

/-- Witness for C10 at the concrete non-JSON body `"\x7boops"`. -/
theorem C10_witness :
    jsonParse "\x7boops" = Except.error "Expecting property name enclosed in double quotes"
    ∧ message_handler "\x7boops"
      = Except.error "Expecting property name enclosed in double quotes" :=
  ⟨rfl, C10_invalid_json_escapes_handler "\x7boops" "Expecting property name enclosed in double quotes" rfl⟩
